import Mathlib

/- Verification development for the research-paper-to-project-plan pipeline.

   Shallow embedding of the plan-generation core (`src/project_planner.py`),
   the diagram identifier sanitization (`src/visualization_generator.py`) and
   the analyzer fallback logic (`src/ai_analyzer.py`).

   Modelling conventions:
   * Python `dict` records become Lean structures (all claims concern records
     where every field is present; Python `.get` defaults are noted where the
     source uses them).
   * Python floats are embedded as exact rationals (ℚ); Python 3 `round`
     (round half to even on the value) becomes `pyRound` below.
   * Python `list(set(..))` has implementation-defined iteration order but is
     deterministic within one interpreter process; it is embedded as a
     deterministic duplicate-removal function `pySetList`.
   * Wall-clock reads (`datetime.now()`) become an explicit `Clock` parameter.
-/

namespace MySite

/-- Python's substring test `needle in hay` (True for the empty needle). -/
def strContains (hay needle : String) : Bool :=
  (List.range (hay.data.length + 1)).any (fun i => needle.data.isPrefixOf (hay.data.drop i))

/-- Python `s.upper()` (character-wise, ASCII behaviour suffices here). -/
def pyUpper (s : String) : String :=
  ⟨s.data.map Char.toUpper⟩

/-- Python `s.lower()` (character-wise, ASCII behaviour suffices here). -/
def pyLower (s : String) : String :=
  ⟨s.data.map Char.toLower⟩

/-- Python `s[:n]` (slicing by code points). -/
def strTake (s : String) (n : ℕ) : String :=
  ⟨s.data.take n⟩

/-- Python 3 `round` applied to an exact rational value: round half to even. -/
def pyRound (q : ℚ) : ℤ :=
  if q - ⌊q⌋ < 1/2 then ⌊q⌋
  else if (1 : ℚ)/2 < q - ⌊q⌋ then ⌊q⌋ + 1
  else if ⌊q⌋ % 2 = 0 then ⌊q⌋ else ⌊q⌋ + 1

/-- Python `' '.join(l)`. -/
def joinSpace (l : List String) : String :=
  String.intercalate (" ") l

/-- `list(set(l))` from `_generate_tech_stack` (line 443): duplicate removal.
    Python's set iteration order is implementation defined but fixed within a
    process; it is embedded as the canonical duplicate-free list `List.dedup`. -/
def pySetList (l : List String) : List String :=
  l.dedup

/-- Python `max` over a list of integers (the source only applies it to
    non-empty lists; on `[]` Python raises, here we return 0). -/
def pyMaxInt : List ℤ → ℤ
  | [] => 0
  | x :: xs => xs.foldl max x

/- ------------------------------------------------------------------ -/
/- Data model (§3 of the spec; the analyzer's JSON schema from
   `src/ai_analyzer.py` lines 80-100).                                -/
/- ------------------------------------------------------------------ -/

structure TechnicalRequirements where
  programming_languages : List String
  frameworks : List String
  hardware : List String
  datasets : List String
deriving DecidableEq

structure Analysis where
  title : String
  authors : String
  abstract : String
  domain : String
  research_type : String
  year : String
  complexity : String
  key_concepts : List String
  methodologies : List String
  technical_requirements : TechnicalRequirements
  applications : List String
  challenges : List String
  future_work : List String
deriving DecidableEq

structure ProjectSettings where
  duration : ℤ
  team_size : ℤ
deriving DecidableEq

structure PhaseTemplate where
  name : String
  base_duration : ℕ
  objectives : String
  core_tasks : List String
deriving DecidableEq

structure Phase where
  name : String
  duration : String
  start_month : ℤ
  end_month : ℤ
  objectives : String
  tasks : List String
  deliverables : List String
  success_criteria : List String
deriving DecidableEq

/- ------------------------------------------------------------------ -/
/- Phase templates: `_load_phase_templates` (project_planner.py 67-241) -/
/- ------------------------------------------------------------------ -/

def nlpTemplate : List PhaseTemplate :=
  [ { name := "Foundation and Setup", base_duration := 3,
      objectives := "Establish theoretical understanding and development environment",
      core_tasks := ["Set up development environment", "Literature review",
                     "Dataset preparation", "Basic NLP understanding"] },
    { name := "Core Component Development", base_duration := 6,
      objectives := "Build fundamental NLP processing capabilities",
      core_tasks := ["Text preprocessing pipeline", "Basic NLP models",
                     "Feature extraction", "Initial testing"] },
    { name := "Advanced Implementation", base_duration := 4,
      objectives := "Implement state-of-the-art approaches",
      core_tasks := ["Neural network implementation", "Advanced model training",
                     "Optimization", "Performance tuning"] },
    { name := "Application Development", base_duration := 4,
      objectives := "Create practical applications",
      core_tasks := ["User interface development", "Application logic",
                     "Integration testing", "User experience optimization"] },
    { name := "Evaluation and Deployment", base_duration := 3,
      objectives := "Testing, optimization, and deployment",
      core_tasks := ["Comprehensive evaluation", "Performance optimization",
                     "Documentation", "Deployment"] } ]

def cvTemplate : List PhaseTemplate :=
  [ { name := "Environment and Data Setup", base_duration := 3,
      objectives := "Prepare development environment and datasets",
      core_tasks := ["Development environment setup", "Image dataset collection",
                     "Data preprocessing", "Baseline model research"] },
    { name := "Model Development", base_duration := 6,
      objectives := "Implement core computer vision models",
      core_tasks := ["Image preprocessing pipeline", "CNN architecture implementation",
                     "Model training", "Initial evaluation"] },
    { name := "Advanced Techniques", base_duration := 4,
      objectives := "Implement advanced computer vision techniques",
      core_tasks := ["Transfer learning", "Data augmentation",
                     "Advanced architectures", "Performance optimization"] },
    { name := "Application Integration", base_duration := 4,
      objectives := "Build practical applications",
      core_tasks := ["Real-time processing", "User interface",
                     "API development", "System integration"] },
    { name := "Testing and Deployment", base_duration := 3,
      objectives := "Final testing and deployment",
      core_tasks := ["Performance testing", "User acceptance testing",
                     "Production deployment", "Monitoring setup"] } ]

def mlTemplate : List PhaseTemplate :=
  [ { name := "Data and Environment Preparation", base_duration := 3,
      objectives := "Setup and data understanding",
      core_tasks := ["Environment configuration", "Data collection and exploration",
                     "Feature engineering", "Data quality assessment"] },
    { name := "Model Development", base_duration := 6,
      objectives := "Develop and train ML models",
      core_tasks := ["Algorithm selection", "Model implementation",
                     "Training and validation", "Hyperparameter tuning"] },
    { name := "Advanced Modeling", base_duration := 4,
      objectives := "Implement advanced ML techniques",
      core_tasks := ["Ensemble methods", "Deep learning integration",
                     "Model optimization", "Cross-validation"] },
    { name := "System Integration", base_duration := 4,
      objectives := "Build production system",
      core_tasks := ["API development", "Database integration",
                     "Real-time prediction", "System architecture"] },
    { name := "Production and Monitoring", base_duration := 3,
      objectives := "Deploy and monitor system",
      core_tasks := ["Production deployment", "Performance monitoring",
                     "Model maintenance", "Documentation"] } ]

/-- The template table together with the `.get(template_key, ..['Machine
    Learning'])` lookup of line 255 (the fallback is the ML family). -/
def phase_templates (key : String) : List PhaseTemplate :=
  if key = "NLP" then nlpTemplate
  else if key = "Computer Vision" then cvTemplate
  else mlTemplate

/-- Domain dispatch of `_generate_phases` (lines 248-253): case-insensitive
    because the needles are upper-case and the haystack is upper-cased. -/
def templateKey (domain : String) : String :=
  if strContains (pyUpper domain) "NLP" || strContains (pyUpper domain) "NATURAL LANGUAGE" then
    "NLP"
  else if strContains (pyUpper domain) "VISION" || strContains (pyUpper domain) "IMAGE" then
    "Computer Vision"
  else
    "Machine Learning"

/-- The complexity lookup table of lines 258-263 (`.get(complexity, 1.0)`). -/
def complexity_multiplier (complexity : String) : ℚ :=
  if complexity = "Beginner" then 0.8
  else if complexity = "Intermediate" then 1.0
  else if complexity = "Advanced" then 1.3
  else if complexity = "Expert" then 1.6
  else 1.0

/-- Lines 273-275: `max(1, round(base_duration * duration_multiplier *
    complexity_multiplier))`. -/
def adjustedDuration (dm cm : ℚ) (base : ℕ) : ℤ :=
  max 1 (pyRound ((base : ℚ) * dm * cm))

/-- `_customize_phase_tasks` (lines 300-319).  The skip test is Python's
    `concept.lower() not in ' '.join(customized_tasks).lower()`: containment
    in the space-joined current task list.  The `phase_name` parameter exists
    in the source but is unused by it. -/
def customize_phase_tasks (base_tasks : List String) (analysis : Analysis)
    (_phaseName : String) : List String :=
  let afterConcepts := (analysis.key_concepts.take 3).foldl
    (fun tasks concept =>
      if strContains (pyLower (joinSpace tasks)) (pyLower concept) then tasks
      else tasks ++ ["Implement " ++ concept ++ " functionality"]) base_tasks
  (analysis.technical_requirements.frameworks.take 2).foldl
    (fun tasks fw =>
      if strContains (pyLower (joinSpace tasks)) (pyLower fw) then tasks
      else tasks ++ ["Integrate " ++ fw ++ " framework"]) afterConcepts

/-- The per-phase-name deliverables table of lines 323-357 (default
    `["Phase deliverables"]`). -/
def base_deliverables (phaseName : String) : List String :=
  if phaseName = "Foundation and Setup" then
    ["Development environment setup", "Literature review document",
     "Dataset preparation report", "Technical specification document"]
  else if phaseName = "Core Component Development" then
    ["Core processing pipeline", "Basic model implementations",
     "Initial testing results", "Performance baseline report"]
  else if phaseName = "Advanced Implementation" then
    ["Advanced model implementations", "Optimization results",
     "Performance improvement report", "Technical documentation"]
  else if phaseName = "Application Development" then
    ["User interface prototype", "Application backend",
     "Integration testing report", "User documentation"]
  else if phaseName = "Evaluation and Deployment" then
    ["Final evaluation report", "Optimized production system",
     "Deployment documentation", "User manual"]
  else
    ["Phase deliverables"]

/-- `_generate_phase_deliverables` (lines 321-370). The second branch tests
    `'Vision' in domain.upper()` exactly as the source does (mixed-case
    needle). -/
def generate_phase_deliverables (phaseName : String) (analysis : Analysis) : List String :=
  let deliverables := base_deliverables phaseName
  if strContains (pyUpper analysis.domain) "NLP" then
    if strContains (phaseName) "Core" then
      deliverables ++ ["Text preprocessing pipeline", "Language model implementation"]
    else deliverables
  else if strContains (pyUpper analysis.domain) "Vision" then
    if strContains (phaseName) "Core" then
      deliverables ++ ["Image preprocessing pipeline", "Computer vision model"]
    else deliverables
  else deliverables

/-- The per-phase-name criteria table of lines 374-400 (default
    `["Phase objectives met"]`). -/
def base_criteria (phaseName : String) : List String :=
  if phaseName = "Foundation and Setup" then
    ["Functional development environment", "Complete dataset preparation",
     "Clear project roadmap"]
  else if phaseName = "Core Component Development" then
    ["Working core components", "Baseline performance achieved",
     "Successful initial testing"]
  else if phaseName = "Advanced Implementation" then
    ["Improved model performance", "Optimization targets met",
     "Advanced features implemented"]
  else if phaseName = "Application Development" then
    ["Functional user interface", "Complete application features",
     "User acceptance testing passed"]
  else if phaseName = "Evaluation and Deployment" then
    ["Performance targets achieved", "Successful deployment",
     "Complete documentation"]
  else
    ["Phase objectives met"]

/-- `_generate_success_criteria` (lines 372-411). -/
def generate_success_criteria (phaseName : String) (analysis : Analysis) : List String :=
  let criteria := base_criteria phaseName
  if analysis.complexity = "Advanced" then
    criteria ++ ["Advanced performance benchmarks achieved"]
  else if analysis.complexity = "Expert" then
    criteria ++ ["State-of-the-art performance achieved"]
  else criteria

/-- The phase-building loop of `_generate_phases` (lines 269-298). -/
def generatePhasesLoop (analysis : Analysis) (dm cm : ℚ) :
    List PhaseTemplate → ℤ → List Phase
  | [], _ => []
  | t :: ts, current_month =>
    let d := adjustedDuration dm cm t.base_duration
    { name := t.name
      duration := toString d ++ " months"
      start_month := current_month
      end_month := current_month + d - 1
      objectives := t.objectives
      tasks := customize_phase_tasks t.core_tasks analysis t.name
      deliverables := generate_phase_deliverables t.name analysis
      success_criteria := generate_success_criteria t.name analysis } ::
    generatePhasesLoop analysis dm cm ts (current_month + d)

/-- `_generate_phases` (lines 243-298).  `analysis.get('domain', 'Machine
    Learning')` is the `domain` field here (records are fully populated). -/
def generate_phases (analysis : Analysis) (duration : ℤ) (complexity : String) :
    List Phase :=
  let base_phases := phase_templates (templateKey analysis.domain)
  let cm := complexity_multiplier complexity
  let total_base_duration : ℕ := (base_phases.map PhaseTemplate.base_duration).sum
  let dm : ℚ := (duration : ℚ) / (total_base_duration : ℚ)
  generatePhasesLoop analysis dm cm base_phases 1

/- ------------------------------------------------------------------ -/
/- Tech stack, architecture, resources, risks, metrics, timeline      -/
/- ------------------------------------------------------------------ -/

structure TechStack where
  programming_languages : List String
  core_libraries : List String
  development_tools : List String
  testing : List String
  deployment : List String
  ml_frameworks : List String
  nlp_libraries : Option (List String)
  cv_libraries : Option (List String)
deriving DecidableEq

/-- `_generate_tech_stack` (lines 413-445).  The branch conditions are
    transcribed verbatim: `'NLP' in domain.upper()` and `'Vision' in
    domain.upper()` — the second needle is mixed-case in the source. -/
def generate_tech_stack (analysis : Analysis) : TechStack :=
  let domain := analysis.domain
  let branch : List String × Option (List String) × Option (List String) :=
    if strContains (pyUpper domain) "NLP" then
      (["TensorFlow", "PyTorch", "Transformers (Hugging Face)"],
       some ["spaCy", "NLTK", "Gensim"], none)
    else if strContains (pyUpper domain) "Vision" then
      (["TensorFlow", "PyTorch", "OpenCV"],
       none, some ["PIL", "scikit-image", "albumentations"])
    else
      (["Scikit-learn", "TensorFlow", "PyTorch"], none, none)
  let frameworks := analysis.technical_requirements.frameworks
  let ml := if frameworks.isEmpty then branch.1
            else pySetList (branch.1 ++ frameworks.take 3)
  { programming_languages := ["Python"]
    core_libraries := ["NumPy", "Pandas", "Matplotlib"]
    development_tools := ["Jupyter Notebook", "Git", "VS Code"]
    testing := ["Pytest", "Unit Testing"]
    deployment := ["Docker", "Flask/FastAPI"]
    ml_frameworks := ml
    nlp_libraries := branch.2.1
    cv_libraries := branch.2.2 }

structure Architecture where
  data_layer : String
  model_layer : String
  application_layer : String
  interface_layer : String
deriving DecidableEq

/-- The NLP branch of `_generate_architecture` (lines 451-457). -/
def nlpArchitecture : Architecture :=
  { data_layer := "Text preprocessing and tokenization pipeline"
    model_layer := "Neural language models and transformers"
    application_layer := "NLP applications and APIs"
    interface_layer := "Web interface and user interaction" }

/-- The vision branch of `_generate_architecture` (lines 458-464). -/
def visionArchitecture : Architecture :=
  { data_layer := "Image preprocessing and augmentation pipeline"
    model_layer := "Convolutional neural networks and vision models"
    application_layer := "Computer vision applications and APIs"
    interface_layer := "Image upload interface and visualization" }

/-- The generic (else) branch of `_generate_architecture` (lines 465-471). -/
def mlArchitecture : Architecture :=
  { data_layer := "Data preprocessing and feature engineering"
    model_layer := "Machine learning models and algorithms"
    application_layer := "Prediction services and APIs"
    interface_layer := "Dashboard and user interface" }

/-- `_generate_architecture` (lines 447-471), branch conditions verbatim
    (`'Vision' in domain.upper()` with the mixed-case needle). -/
def generate_architecture (analysis : Analysis) : Architecture :=
  if strContains (pyUpper analysis.domain) "NLP" then nlpArchitecture
  else if strContains (pyUpper analysis.domain) "Vision" then visionArchitecture
  else mlArchitecture

structure Resources where
  team : String
  development_environment : String
  hardware : String
  cloud_resources : String
  data_storage : Option String
deriving DecidableEq

/-- `_generate_resource_requirements` (lines 473-498). -/
def generate_resource_requirements (analysis : Analysis) (team_size : ℤ) : Resources :=
  let complexity := analysis.complexity
  let highEnd := complexity = "Advanced" ∨ complexity = "Expert"
  { team := toString team_size ++ " team members (developers, data scientists, researchers)"
    development_environment := "Modern development machines with good specifications"
    hardware := if highEnd then "GPU workstations (8GB+ VRAM), 32GB+ RAM, SSD storage"
                else "Standard development machines, GPU recommended"
    cloud_resources := if highEnd then "Cloud GPU instances for training (AWS/GCP/Azure)"
                       else "Basic cloud services for deployment"
    data_storage :=
      if strContains (pyUpper analysis.domain) "NLP" then
        some ("Large text corpora and pre-trained models")
      else if strContains (pyUpper analysis.domain) "Vision" then
        some ("Image datasets and pre-trained vision models")
      else none }

structure Risk where
  risk : String
  mitigation : String
deriving DecidableEq

/-- `_generate_risks` (lines 500-542). -/
def generate_risks (analysis : Analysis) (complexity : String) : List Risk :=
  let base : List Risk :=
    [ { risk := "Technical complexity exceeding team capabilities",
        mitigation := "Provide comprehensive training and consider external consultants" },
      { risk := "Data quality and availability issues",
        mitigation := "Establish data quality checks and backup data sources" },
      { risk := "Performance not meeting requirements",
        mitigation := "Set realistic benchmarks and implement iterative improvements" },
      { risk := "Timeline delays due to unforeseen challenges",
        mitigation := "Build buffer time into schedule and prioritize core features" } ]
  let withComplexity :=
    if complexity = "Advanced" ∨ complexity = "Expert" then
      base ++
      [ { risk := "High computational resource requirements",
          mitigation := "Secure adequate cloud resources and optimize algorithms" },
        { risk := "Keeping up with rapidly evolving research",
          mitigation := "Establish continuous learning and update procedures" } ]
    else base
  withComplexity ++ (analysis.challenges.take 2).map
    (fun challenge => { risk := challenge,
                        mitigation := "Implement targeted solutions and monitoring" })

structure Metrics where
  technical_metrics : List String
  project_metrics : List String
deriving DecidableEq

/-- `_generate_success_metrics` (lines 544-577), branch conditions verbatim. -/
def generate_success_metrics (analysis : Analysis) : Metrics :=
  let baseTechnical :=
    ["Model accuracy > 85%", "System response time < 2 seconds",
     "Code coverage > 80%", "Performance benchmarks achieved"]
  { technical_metrics :=
      if strContains (pyUpper analysis.domain) "NLP" then
        baseTechnical ++
        ["BLEU score > 25 (for translation tasks)", "F1-score > 0.85 (for classification)",
         "ROUGE score > 0.7 (for summarization)"]
      else if strContains (pyUpper analysis.domain) "Vision" then
        baseTechnical ++
        ["Image classification accuracy > 90%", "Object detection mAP > 0.5",
         "Real-time processing capability"]
      else baseTechnical
    project_metrics :=
      ["On-time delivery", "Budget adherence", "Quality standards met",
       "Stakeholder satisfaction > 4.0/5.0"] }

structure Milestone where
  name : String
  month : ℤ
  description : String
deriving DecidableEq

structure Timeline where
  total_duration : String
  start_date : String
  estimated_end_date : String
  milestones : List Milestone
deriving DecidableEq

/-- The wall-clock reads of `generate_plan` and `_generate_timeline`, made an
    explicit parameter: `nowIso` is `datetime.now().isoformat()`, `nowDate` is
    `datetime.now().strftime("%Y-%m-%d")`, and `endDateAfterDays d` is
    `(datetime.now() + timedelta(days=d)).strftime("%Y-%m-%d")`. -/
structure Clock where
  nowIso : String
  nowDate : String
  endDateAfterDays : ℤ → String

/-- `_generate_timeline` (lines 579-598). -/
def generate_timeline (clock : Clock) (phases : List Phase) : Timeline :=
  let total_duration := pyMaxInt (phases.map Phase.end_month)
  { total_duration := toString total_duration ++ " months"
    start_date := clock.nowDate
    estimated_end_date := clock.endDateAfterDays (total_duration * 30)
    milestones := phases.map (fun phase =>
      { name := phase.name ++ " Completion"
        month := phase.end_month
        description := "Complete " ++ phase.name ++ " with all deliverables" }) }

structure ProjectOverview where
  title : String
  domain : String
  complexity : String
  estimated_duration : String
  team_size : ℤ
  generated_date : String

structure ProjectPlan where
  project_overview : ProjectOverview
  phases : List Phase
  technical_stack : TechStack
  architecture : Architecture
  resources : Resources
  risks : List Risk
  success_metrics : Metrics
  timeline : Timeline

/-- `generate_plan` (lines 12-65). -/
def generate_plan (clock : Clock) (paper_analysis : Analysis)
    (project_settings : ProjectSettings) : ProjectPlan :=
  let duration := project_settings.duration
  let team_size := project_settings.team_size
  let phases := generate_phases paper_analysis duration paper_analysis.complexity
  { project_overview :=
      { title := paper_analysis.title ++ " - Project Plan"
        domain := paper_analysis.domain
        complexity := paper_analysis.complexity
        estimated_duration := toString duration ++ " months"
        team_size := team_size
        generated_date := clock.nowIso }
    phases := phases
    technical_stack := generate_tech_stack paper_analysis
    architecture := generate_architecture paper_analysis
    resources := generate_resource_requirements paper_analysis team_size
    risks := generate_risks paper_analysis paper_analysis.complexity
    success_metrics := generate_success_metrics paper_analysis
    timeline := generate_timeline clock phases }

/- ------------------------------------------------------------------ -/
/- Diagram identifier sanitization (src/visualization_generator.py)   -/
/- ------------------------------------------------------------------ -/

/-- Python `s.replace(' ', '_')` (single-character pattern). -/
def replaceSpaces (s : String) : String :=
  ⟨s.data.map (fun c => if c = ' ' then '_' else c)⟩

/-- The Gantt chart's phase bar label, line 60:
    `phase.get('name', ..).replace(' ', '_')`. -/
def ganttPhaseName (name : String) : String :=
  replaceSpaces name

/-- The Gantt chart's task bar label, line 66:
    `task.replace(' ', '_')[:20]`. -/
def ganttTaskName (task : String) : String :=
  strTake (replaceSpaces task) 20

/-- The architecture diagram's per-component node identifier, line 144:
    `component.upper().replace(' ', '_')`. -/
def archComponentId (component : String) : String :=
  replaceSpaces (pyUpper component)

/- ------------------------------------------------------------------ -/
/- Analyzer fallback logic (src/ai_analyzer.py)                       -/
/- ------------------------------------------------------------------ -/

/-- Index of the last occurrence of `c` in `cs`, if any. -/
def lastIdxOf (c : Char) (cs : List Char) : Option ℕ :=
  match cs.reverse.findIdx? (· = c) with
  | none => none
  | some k => some (cs.length - 1 - k)

/-- `re.search(r'\x7b.*\x7d', response_text, re.DOTALL)` from line 114: the
    match, when one exists, starts at the first opening brace that has a
    closing brace somewhere after it and extends greedily to the last closing
    brace of the whole text. -/
def findJsonObject (s : String) : Option String :=
  let cs := s.data
  match lastIdxOf '}' cs with
  | none => none
  | some j =>
    match (cs.take j).findIdx? (· = '{') with
    | none => none
    | some i => some ⟨(cs.drop i).take (j - i + 1)⟩

/-- `_create_structured_analysis_from_text` (lines 128-152): the parse-failure
    fallback, whose abstract is `text[:500] + "..." if len(text) > 500 else
    text`. -/
def create_structured_analysis_from_text (text : String) : Analysis :=
  { title := "Research Paper Analysis"
    authors := "Not specified"
    abstract := if 500 < text.data.length then strTake text 500 ++ "..." else text
    domain := "Computer Science"
    research_type := "Research Paper"
    year := "2024"
    complexity := "Intermediate"
    key_concepts := ["Machine Learning", "Data Analysis", "Implementation"]
    methodologies := ["Experimental", "Comparative Analysis"]
    technical_requirements :=
      { programming_languages := ["Python"]
        frameworks := ["TensorFlow", "PyTorch", "Scikit-learn"]
        hardware := ["GPU recommended", "8GB+ RAM"]
        datasets := ["Custom dataset required"] }
    applications := ["Research Implementation", "Practical Application"]
    challenges := ["Data Quality", "Model Performance", "Scalability"]
    future_work := ["Optimization", "Extension", "Real-world Deployment"] }

/-- `_create_fallback_analysis` (lines 154-175): the transport-failure
    fallback record. -/
def create_fallback_analysis : Analysis :=
  { title := "Research Paper"
    authors := "Unknown"
    abstract := "Analysis unavailable - please check your API configuration"
    domain := "Computer Science"
    research_type := "Research Paper"
    year := "2024"
    complexity := "Intermediate"
    key_concepts := ["Research", "Implementation"]
    methodologies := ["Analysis"]
    technical_requirements :=
      { programming_languages := ["Python"]
        frameworks := ["Standard libraries"]
        hardware := ["Standard hardware"]
        datasets := ["TBD"] }
    applications := ["Research"]
    challenges := ["Implementation"]
    future_work := ["Development"] }

/-- `_parse_analysis_response` (lines 107-126).  `decodeJson` models
    `json.loads` on the located brace-delimited candidate: `none` stands for a
    raised `JSONDecodeError` (the only caught exception), `some a` for a
    successful decode into the analysis record. -/
def parse_analysis_response (decodeJson : String → Option Analysis)
    (response_text : String) : Analysis :=
  match findJsonObject response_text with
  | some js =>
    match decodeJson js with
    | some a => a
    | none => create_structured_analysis_from_text response_text
  | none => create_structured_analysis_from_text response_text

/-- `analyze_paper` (lines 21-65).  `hasClient` models `self.client` being
    non-`None`; `networkResult` models the chat-completion call, `Except.error`
    standing for a raised transport exception and `Except.ok text` for a reply
    whose message content is `text`.  A raised exception at the top of the
    function is `Except.error`. -/
def analyze_paper (hasClient : Bool) (networkResult : Except String String)
    (decodeJson : String → Option Analysis) : Except String Analysis :=
  if hasClient = false then
    Except.error ("Together.AI client not initialized. Please provide API key.")
  else
    match networkResult with
    | Except.error _ => Except.ok create_fallback_analysis
    | Except.ok response => Except.ok (parse_analysis_response decodeJson response)

/- ------------------------------------------------------------------ -/
/- Concrete records used by the claims                                -/
/- ------------------------------------------------------------------ -/

/-- The §8 scenario record: domain "Computer Vision", complexity "Advanced". -/
def cvScenario : Analysis :=
  { title := "Vision Paper"
    authors := "A. Author"
    abstract := "An abstract"
    domain := "Computer Vision"
    research_type := "Experimental"
    year := "2024"
    complexity := "Advanced"
    key_concepts := []
    methodologies := []
    technical_requirements :=
      { programming_languages := [], frameworks := [], hardware := [], datasets := [] }
    applications := []
    challenges := []
    future_work := [] }

/-- The Computer Vision family's first-phase template tasks (line 132-137). -/
def c4BaseTasks : List String :=
  ["Development environment setup", "Image dataset collection",
   "Data preprocessing", "Baseline model research"]

/-- A record whose single key concept straddles a task boundary of
    `c4BaseTasks` once the tasks are joined with spaces. -/
def c4Analysis : Analysis :=
  { title := "Vision Paper"
    authors := "A. Author"
    abstract := "An abstract"
    domain := "Computer Vision"
    research_type := "Experimental"
    year := "2024"
    complexity := "Advanced"
    key_concepts := ["setup image"]
    methodologies := []
    technical_requirements :=
      { programming_languages := [], frameworks := [], hardware := [], datasets := [] }
    applications := []
    challenges := []
    future_work := [] }

/-- A task list that already mentions "transformers" (for the §8 dedup
    scenario). -/
def transformerTasks : List String :=
  ["Study transformers architecture"]

/-- The §8 dedup scenario record:
    `key_concepts = ["Transformers", "Transformers", "Attention"]`. -/
def transformerAnalysis : Analysis :=
  { title := "NLP Paper"
    authors := "A. Author"
    abstract := "An abstract"
    domain := "NLP"
    research_type := "Experimental"
    year := "2024"
    complexity := "Intermediate"
    key_concepts := ["Transformers", "Transformers", "Attention"]
    methodologies := []
    technical_requirements :=
      { programming_languages := [], frameworks := [], hardware := [], datasets := [] }
    applications := []
    challenges := []
    future_work := [] }

/-- The dedup-append rule restated from the (amended) spec wording, to be
    compared with `customize_phase_tasks`: walk the items in order, appending
    `phrase x` unless the space-joined current task list already contains `x`
    case-insensitively. -/
def dedupAppendJoined (phrase : String → String) : List String → List String → List String
  | tasks, [] => tasks
  | tasks, x :: xs =>
    if strContains (pyLower (joinSpace tasks)) (pyLower x) then
      dedupAppendJoined phrase tasks xs
    else
      dedupAppendJoined phrase (tasks ++ [phrase x]) xs

end MySite

/- ------------------------------------------------------------------ -/
/- Helper lemmas                                                      -/
/- ------------------------------------------------------------------ -/

namespace MySite

theorem pyRound_le_floor_add_one (q : ℚ) : pyRound q ≤ ⌊q⌋ + 1 := by
  unfold pyRound; split_ifs <;> omega

theorem floor_le_pyRound (q : ℚ) : ⌊q⌋ ≤ pyRound q := by
  unfold pyRound; split_ifs <;> omega

theorem pyRound_mono {x y : ℚ} (h : x ≤ y) : pyRound x ≤ pyRound y := by
  rcases lt_or_eq_of_le (Int.floor_le_floor h) with hf | hf
  · calc pyRound x ≤ ⌊x⌋ + 1 := pyRound_le_floor_add_one x
      _ ≤ ⌊y⌋ := by omega
      _ ≤ pyRound y := floor_le_pyRound y
  · unfold pyRound
    rw [← hf]
    split_ifs <;> first | omega | linarith

theorem adjustedDuration_mono {dm cm1 cm2 : ℚ} (hdm : 0 ≤ dm) (h : cm1 ≤ cm2) (b : ℕ) :
    adjustedDuration dm cm1 b ≤ adjustedDuration dm cm2 b := by
  unfold adjustedDuration
  have hb : (b : ℚ) * dm * cm1 ≤ (b : ℚ) * dm * cm2 :=
    mul_le_mul_of_nonneg_left h (by positivity)
  exact max_le_max le_rfl (pyRound_mono hb)

theorem one_le_adjustedDuration (dm cm : ℚ) (b : ℕ) : 1 ≤ adjustedDuration dm cm b :=
  le_max_left _ _

theorem loop_durations (a : Analysis) (dm cm : ℚ) : ∀ (ts : List PhaseTemplate) (cur : ℤ),
    (generatePhasesLoop a dm cm ts cur).map (fun p => p.end_month - p.start_month + 1)
      = ts.map (fun t => adjustedDuration dm cm t.base_duration) := by
  intro ts
  induction ts with
  | nil => intro cur; rfl
  | cons t ts ih =>
    intro cur
    simp only [generatePhasesLoop, List.map_cons, ih]
    congr 1
    ring

theorem loop_chain (a : Analysis) (dm cm : ℚ) : ∀ (ts : List PhaseTemplate) (cur : ℤ),
    List.Chain' (fun p q => q.start_month = p.end_month + 1)
      (generatePhasesLoop a dm cm ts cur) := by
  intro ts
  induction ts with
  | nil => intro cur; simp [generatePhasesLoop]
  | cons t ts ih =>
    intro cur
    cases ts with
    | nil => simp [generatePhasesLoop]
    | cons t2 ts2 =>
      simp only [generatePhasesLoop, List.chain'_cons]
      exact ⟨by ring, ih (cur + adjustedDuration dm cm t.base_duration)⟩

theorem loop_head_start (a : Analysis) (dm cm : ℚ) (t : PhaseTemplate)
    (ts : List PhaseTemplate) (cur : ℤ) :
    (generatePhasesLoop a dm cm (t :: ts) cur).head?.map Phase.start_month = some cur := by
  simp [generatePhasesLoop]

theorem loop_duration_ge_one (a : Analysis) (dm cm : ℚ) :
    ∀ (ts : List PhaseTemplate) (cur : ℤ) (p : Phase),
      p ∈ generatePhasesLoop a dm cm ts cur → 1 ≤ p.end_month - p.start_month + 1 := by
  intro ts
  induction ts with
  | nil => intro cur p hp; simp [generatePhasesLoop] at hp
  | cons t ts ih =>
    intro cur p hp
    simp only [generatePhasesLoop, List.mem_cons] at hp
    rcases hp with h | h
    · subst h
      have := one_le_adjustedDuration dm cm t.base_duration
      simp only
      omega
    · exact ih _ _ h

theorem loop_end_months_mono (a : Analysis) {dm cm1 cm2 : ℚ}
    (hdm : 0 ≤ dm) (hcm : cm1 ≤ cm2) :
    ∀ (ts : List PhaseTemplate) (cur1 cur2 : ℤ), cur1 ≤ cur2 →
    List.Forall₂ (· ≤ ·) ((generatePhasesLoop a dm cm1 ts cur1).map Phase.end_month)
                         ((generatePhasesLoop a dm cm2 ts cur2).map Phase.end_month) := by
  intro ts
  induction ts with
  | nil => intro cur1 cur2 h; simp [generatePhasesLoop]
  | cons t ts ih =>
    intro cur1 cur2 h
    have hd := adjustedDuration_mono hdm hcm t.base_duration
    simp only [generatePhasesLoop, List.map_cons]
    exact List.Forall₂.cons (by omega) (ih _ _ (by omega))

theorem foldl_max_mono : ∀ {l1 l2 : List ℤ}, List.Forall₂ (· ≤ ·) l1 l2 →
    ∀ {x1 x2 : ℤ}, x1 ≤ x2 → l1.foldl max x1 ≤ l2.foldl max x2 := by
  intro l1 l2 h
  induction h with
  | nil => intro x1 x2 hx; simpa
  | cons hab h ih => intro x1 x2 hx; exact ih (max_le_max hx hab)

theorem pyMaxInt_mono : ∀ {l1 l2 : List ℤ}, List.Forall₂ (· ≤ ·) l1 l2 →
    pyMaxInt l1 ≤ pyMaxInt l2 := by
  intro l1 l2 h
  cases h with
  | nil => exact le_refl _
  | cons hab h => exact foldl_max_mono h hab

theorem phase_templates_ne_nil (key : String) : phase_templates key ≠ [] := by
  unfold phase_templates
  split_ifs <;> decide

theorem generate_phases_eq (a : Analysis) (dur : ℤ) (c : String) :
    generate_phases a dur c =
      generatePhasesLoop a
        ((dur : ℚ) / (((phase_templates (templateKey a.domain)).map
            PhaseTemplate.base_duration).sum : ℚ))
        (complexity_multiplier c)
        (phase_templates (templateKey a.domain)) 1 := rfl

theorem cvScenario_durations :
    (generate_phases cvScenario 26 ("Advanced")).map
      (fun p => p.end_month - p.start_month + 1) = [5, 10, 7, 7, 5] := by
  have hkey : templateKey cvScenario.domain = "Computer Vision" := by decide
  unfold generate_phases
  rw [hkey, loop_durations]
  have hcv : phase_templates ("Computer Vision") = cvTemplate := by decide
  rw [hcv]
  have hcm : complexity_multiplier ("Advanced") = 1.3 := rfl
  simp only [cvTemplate, List.map_cons, List.map_nil, List.sum_cons, List.sum_nil, hcm]
  norm_num [adjustedDuration, pyRound]

theorem replaceSpaces_no_space (s : String) : ' ' ∉ (replaceSpaces s).data := by
  intro hmem
  simp only [replaceSpaces, List.mem_map] at hmem
  obtain ⟨c, -, hc⟩ := hmem
  by_cases h : c = ' '
  · rw [if_pos h] at hc
    exact absurd hc (by decide)
  · rw [if_neg h] at hc
    exact h hc

theorem foldl_eq_dedupAppendJoined (phrase : String → String) :
    ∀ (items tasks : List String),
      items.foldl (fun ts x =>
        if strContains (pyLower (joinSpace ts)) (pyLower x) then ts
        else ts ++ [phrase x]) tasks
      = dedupAppendJoined phrase tasks items := by
  intro items
  induction items with
  | nil => intro tasks; rfl
  | cons x xs ih =>
    intro tasks
    simp only [List.foldl_cons, dedupAppendJoined]
    split_ifs with h <;> apply ih

theorem dedupAppendJoined_extends (phrase : String → String) :
    ∀ (items tasks : List String), ∃ extra,
      dedupAppendJoined phrase tasks items = tasks ++ extra := by
  intro items
  induction items with
  | nil => intro tasks; exact ⟨[], by simp [dedupAppendJoined]⟩
  | cons x xs ih =>
    intro tasks
    simp only [dedupAppendJoined]
    split_ifs with h
    · exact ih tasks
    · obtain ⟨extra, hextra⟩ := ih (tasks ++ [phrase x])
      exact ⟨phrase x :: extra, by simp [hextra]⟩

theorem customize_eq_dedupAppend (base_tasks : List String) (a : Analysis) (pn : String) :
    customize_phase_tasks base_tasks a pn =
      dedupAppendJoined (fun fw => "Integrate " ++ fw ++ " framework")
        (dedupAppendJoined (fun c => "Implement " ++ c ++ " functionality")
          base_tasks (a.key_concepts.take 3))
        (a.technical_requirements.frameworks.take 2) := by
  unfold customize_phase_tasks
  rw [foldl_eq_dedupAppendJoined, foldl_eq_dedupAppendJoined]

end MySite

/- ------------------------------------------------------------------ -/
/- Claim theorems                                                     -/
/- ------------------------------------------------------------------ -/

namespace MySite

/-- C1: for every analysis record and integer duration in [6,36], each phase's
adjusted duration (its `end_month - start_month + 1`) equals
`max(1, round(base_duration_i * (duration / total_base_duration) *
complexity_multiplier))`, where the complexity multiplier is 0.8, 1.0, 1.3 and
1.6 for Beginner, Intermediate, Advanced and Expert and 1.0 for any other
label; and in the Computer Vision / Advanced / duration-26 scenario the five
phases (base durations [3,6,4,4,3], total 20) get adjusted durations
[5, 10, 7, 7, 5]. -/
theorem claim1_phase_duration_formula (a : Analysis) (dur : ℤ) (c : String)
    (_h6 : 6 ≤ dur) (_h36 : dur ≤ 36) :
    ((generate_phases a dur c).map (fun p => p.end_month - p.start_month + 1)
      = (phase_templates (templateKey a.domain)).map (fun t =>
          max 1 (pyRound ((t.base_duration : ℚ)
            * ((dur : ℚ) / (((phase_templates (templateKey a.domain)).map
                  PhaseTemplate.base_duration).sum : ℚ))
            * complexity_multiplier c)))) ∧
    complexity_multiplier ("Beginner") = 0.8 ∧
    complexity_multiplier ("Intermediate") = 1.0 ∧
    complexity_multiplier ("Advanced") = 1.3 ∧
    complexity_multiplier ("Expert") = 1.6 ∧
    (∀ s : String, s ≠ "Beginner" → s ≠ "Intermediate" → s ≠ "Advanced" →
      s ≠ "Expert" → complexity_multiplier s = 1.0) ∧
    (generate_phases cvScenario 26 ("Advanced")).map
      (fun p => p.end_month - p.start_month + 1) = [5, 10, 7, 7, 5] := by
  refine ⟨?_, rfl, rfl, rfl, rfl, ?_, cvScenario_durations⟩
  · unfold generate_phases
    rw [loop_durations]
    rfl
  · intro s h1 h2 h3 h4
    unfold complexity_multiplier
    split_ifs <;> first | rfl | contradiction

/-- Witness for C1 at the concrete scenario input. -/
theorem claim1_phase_duration_formula_witness :
    (6 : ℤ) ≤ 26 ∧ (26 : ℤ) ≤ 36 ∧
    (generate_phases cvScenario 26 ("Advanced")).map
      (fun p => p.end_month - p.start_month + 1) = [5, 10, 7, 7, 5] :=
  ⟨by decide, by decide,
    (claim1_phase_duration_formula cvScenario 26 ("Advanced")
      (by decide) (by decide)).2.2.2.2.2.2⟩

/-- C2: for every analysis record and duration in [6,36], the generated phase
list starts at month 1, consecutive phases are contiguous (`start_month` of
the next phase is the previous `end_month + 1`) and every adjusted duration
`end_month - start_month + 1` is at least 1. -/
theorem claim2_phases_contiguous (a : Analysis) (dur : ℤ) (c : String)
    (_h6 : 6 ≤ dur) (_h36 : dur ≤ 36) :
    (generate_phases a dur c).head?.map Phase.start_month = some 1 ∧
    List.Chain' (fun p q => q.start_month = p.end_month + 1) (generate_phases a dur c) ∧
    ∀ p ∈ generate_phases a dur c, 1 ≤ p.end_month - p.start_month + 1 := by
  refine ⟨?_, ?_, ?_⟩
  · have hne := phase_templates_ne_nil (templateKey a.domain)
    obtain ⟨t, ts, hts⟩ : ∃ t ts, phase_templates (templateKey a.domain) = t :: ts := by
      cases h : phase_templates (templateKey a.domain) with
      | nil => exact absurd h hne
      | cons t ts => exact ⟨t, ts, rfl⟩
    unfold generate_phases
    rw [hts]
    exact loop_head_start a _ _ t ts 1
  · unfold generate_phases
    exact loop_chain a _ _ _ 1
  · unfold generate_phases
    exact loop_duration_ge_one a _ _ _ 1

/-- Witness for C2 at the concrete scenario input. -/
theorem claim2_phases_contiguous_witness :
    (6 : ℤ) ≤ 26 ∧ (26 : ℤ) ≤ 36 ∧
    ((generate_phases cvScenario 26 ("Advanced")).head?.map Phase.start_month = some 1 ∧
     List.Chain' (fun p q => q.start_month = p.end_month + 1)
       (generate_phases cvScenario 26 ("Advanced")) ∧
     ∀ p ∈ generate_phases cvScenario 26 ("Advanced"),
       1 ≤ p.end_month - p.start_month + 1) :=
  ⟨by decide, by decide,
    claim2_phases_contiguous cvScenario 26 ("Advanced") (by decide) (by decide)⟩

/-- C3: contrary to the claim, a domain containing "Vision" does NOT select the
vision-specific architecture and tech stack: the phase dispatch upper-cases
both sides ("VISION" is found in "COMPUTER VISION"), but
`_generate_architecture` and `_generate_tech_stack` test the mixed-case needle
"Vision" against the upper-cased domain, which never matches, so the generic
Machine Learning architecture is returned, OpenCV is absent from the
frameworks and no `cv_libraries` category is produced. -/
theorem claim3_vision_checks_dead_code :
    generate_architecture cvScenario = mlArchitecture ∧
    generate_architecture cvScenario ≠ visionArchitecture ∧
    (generate_tech_stack cvScenario).ml_frameworks
      = ["Scikit-learn", "TensorFlow", "PyTorch"] ∧
    "OpenCV" ∉ (generate_tech_stack cvScenario).ml_frameworks ∧
    (generate_tech_stack cvScenario).cv_libraries = none ∧
    strContains (pyUpper cvScenario.domain) "VISION" = true ∧
    strContains (pyUpper cvScenario.domain) "Vision" = false ∧
    templateKey cvScenario.domain = "Computer Vision" := by
  decide

/-- C4 counterexample: with the CV first-phase tasks and the single key
concept "setup image", no individual task contains the concept
case-insensitively — so under the claim's per-task dedup rule it would be
appended — yet the code skips it, because the space-joined task list contains
"setup Image" across the boundary of the first two tasks. -/
theorem claim4_per_task_dedup_counterexample :
    customize_phase_tasks c4BaseTasks c4Analysis ("Environment and Data Setup")
      = c4BaseTasks ∧
    ("Implement setup image functionality"
      ∉ customize_phase_tasks c4BaseTasks c4Analysis ("Environment and Data Setup")) ∧
    (∀ t ∈ c4BaseTasks, strContains (pyLower t) (pyLower ("setup image")) = false) ∧
    c4Analysis.key_concepts = ["setup image"] := by
  decide

/-- C4 (amended): the task list equals the template tasks with at most the
first 3 key concepts appended as "Implement {concept} functionality" and then
at most the first 2 frameworks appended as "Integrate {framework} framework",
where an item is skipped exactly when the space-joined current task list
contains it as a case-insensitive substring (so a match may span a task
boundary); the result always extends the template tasks, and in the
"Transformers"/"Attention" scenario only "Attention" is appended. -/
theorem claim4_joined_dedup (base_tasks : List String) (a : Analysis) (pn : String) :
    customize_phase_tasks base_tasks a pn =
      dedupAppendJoined (fun fw => "Integrate " ++ fw ++ " framework")
        (dedupAppendJoined (fun c => "Implement " ++ c ++ " functionality")
          base_tasks (a.key_concepts.take 3))
        (a.technical_requirements.frameworks.take 2) ∧
    (∃ appended, customize_phase_tasks base_tasks a pn = base_tasks ++ appended) ∧
    customize_phase_tasks transformerTasks transformerAnalysis ("Foundation and Setup")
      = transformerTasks ++ ["Implement Attention functionality"] := by
  refine ⟨customize_eq_dedupAppend base_tasks a pn, ?_, by decide⟩
  rw [customize_eq_dedupAppend]
  obtain ⟨e1, he1⟩ :=
    dedupAppendJoined_extends (fun c => "Implement " ++ c ++ " functionality")
      (a.key_concepts.take 3) base_tasks
  rw [he1]
  obtain ⟨e2, he2⟩ :=
    dedupAppendJoined_extends (fun fw => "Integrate " ++ fw ++ " framework")
      (a.technical_requirements.frameworks.take 2) (base_tasks ++ e1)
  rw [he2, List.append_assoc]
  exact ⟨e1 ++ e2, rfl⟩

/-- C5: holding the analysis and the duration fixed, the maximum end month of
the generated phases is non-decreasing as the complexity label increases
through Beginner, Intermediate, Advanced, Expert. -/
theorem claim5_span_monotone_in_complexity (a : Analysis) (dur : ℤ)
    (h6 : 6 ≤ dur) (_h36 : dur ≤ 36) :
    pyMaxInt ((generate_phases a dur ("Beginner")).map Phase.end_month) ≤
      pyMaxInt ((generate_phases a dur ("Intermediate")).map Phase.end_month) ∧
    pyMaxInt ((generate_phases a dur ("Intermediate")).map Phase.end_month) ≤
      pyMaxInt ((generate_phases a dur ("Advanced")).map Phase.end_month) ∧
    pyMaxInt ((generate_phases a dur ("Advanced")).map Phase.end_month) ≤
      pyMaxInt ((generate_phases a dur ("Expert")).map Phase.end_month) := by
  have hdur : (0 : ℚ) ≤ (dur : ℚ) := by exact_mod_cast by omega
  have hdm : 0 ≤ (dur : ℚ) / (((phase_templates (templateKey a.domain)).map
      PhaseTemplate.base_duration).sum : ℚ) := by
    apply div_nonneg hdur
    positivity
  have hB : complexity_multiplier ("Beginner") = 0.8 := rfl
  have hI : complexity_multiplier ("Intermediate") = 1.0 := rfl
  have hA : complexity_multiplier ("Advanced") = 1.3 := rfl
  have hE : complexity_multiplier ("Expert") = 1.6 := rfl
  refine ⟨?_, ?_, ?_⟩ <;> rw [generate_phases_eq, generate_phases_eq]
  · exact pyMaxInt_mono (loop_end_months_mono a hdm
      (by rw [hB, hI]; norm_num) _ 1 1 le_rfl)
  · exact pyMaxInt_mono (loop_end_months_mono a hdm
      (by rw [hI, hA]; norm_num) _ 1 1 le_rfl)
  · exact pyMaxInt_mono (loop_end_months_mono a hdm
      (by rw [hA, hE]; norm_num) _ 1 1 le_rfl)

/-- Witness for C5 at the concrete scenario input. -/
theorem claim5_span_monotone_in_complexity_witness :
    (6 : ℤ) ≤ 26 ∧ (26 : ℤ) ≤ 36 ∧
    (pyMaxInt ((generate_phases cvScenario 26 ("Beginner")).map Phase.end_month) ≤
       pyMaxInt ((generate_phases cvScenario 26 ("Intermediate")).map Phase.end_month) ∧
     pyMaxInt ((generate_phases cvScenario 26 ("Intermediate")).map Phase.end_month) ≤
       pyMaxInt ((generate_phases cvScenario 26 ("Advanced")).map Phase.end_month) ∧
     pyMaxInt ((generate_phases cvScenario 26 ("Advanced")).map Phase.end_month) ≤
       pyMaxInt ((generate_phases cvScenario 26 ("Expert")).map Phase.end_month)) :=
  ⟨by decide, by decide,
    claim5_span_monotone_in_complexity cvScenario 26 (by decide) (by decide)⟩

/-- C6: there are valid settings (duration 26, inside [6,36]), a template
family and a complexity label for which the adjusted phase durations do not
sum to the requested duration — the rounding drift is preserved (here the
durations sum to 34, not 26). -/
theorem claim6_rounding_drift_exists :
    ∃ (a : Analysis) (dur : ℤ) (c : String), 6 ≤ dur ∧ dur ≤ 36 ∧
      ((generate_phases a dur c).map
        (fun p => p.end_month - p.start_month + 1)).sum ≠ dur := by
  refine ⟨cvScenario, 26, "Advanced", by decide, by decide, ?_⟩
  rw [cvScenario_durations]
  decide

/-- C7: with the wall clock held fixed as a parameter, two plan generations
from identical inputs agree on phases, technical stack, architecture,
resources and risks (the clock only affects the timestamps); in particular
the deduplicated `ml_frameworks` list is the same in both runs. -/
theorem claim7_deterministic_given_clock (c1 c2 : Clock) (a : Analysis)
    (s : ProjectSettings) :
    (generate_plan c1 a s).phases = (generate_plan c2 a s).phases ∧
    (generate_plan c1 a s).technical_stack = (generate_plan c2 a s).technical_stack ∧
    (generate_plan c1 a s).architecture = (generate_plan c2 a s).architecture ∧
    (generate_plan c1 a s).resources = (generate_plan c2 a s).resources ∧
    (generate_plan c1 a s).risks = (generate_plan c2 a s).risks ∧
    (generate_plan c1 a s).technical_stack.ml_frameworks
      = (generate_plan c2 a s).technical_stack.ml_frameworks :=
  ⟨rfl, rfl, rfl, rfl, rfl, rfl⟩

/-- C8 counterexample: the architecture diagram's node identifier for the
component key "data_layer" is "DATA_LAYER" — the source upper-cases the key
before replacing spaces — so it is not obtained from the name by replacing
spaces alone. -/
theorem claim8_space_only_counterexample :
    archComponentId ("data_layer") = "DATA_LAYER" ∧
    archComponentId ("data_layer") ≠ replaceSpaces ("data_layer") := by
  decide

/-- C8 (amended): Gantt phase identifiers are the name with every space
replaced by an underscore, Gantt task identifiers additionally truncate to 20
characters, architecture component identifiers are additionally upper-cased
before the space replacement; consequently no generated identifier contains a
space character. -/
theorem claim8_identifiers_sanitized (s : String) :
    ganttPhaseName s = replaceSpaces s ∧
    ganttTaskName s = strTake (replaceSpaces s) 20 ∧
    archComponentId s = replaceSpaces (pyUpper s) ∧
    ' ' ∉ (ganttPhaseName s).data ∧
    ' ' ∉ (ganttTaskName s).data ∧
    ' ' ∉ (archComponentId s).data := by
  refine ⟨rfl, rfl, rfl, replaceSpaces_no_space s, ?_, replaceSpaces_no_space (pyUpper s)⟩
  intro h
  exact replaceSpaces_no_space s (List.take_subset 20 _ h)

/-- C9: when the reply holds no brace-delimited JSON object, or the located
candidate fails to decode, the analyzer returns the parse-fallback record
whose abstract is built from the reply's first 500 characters; a transport
error instead yields the fixed "Analysis unavailable" record; and for every
reply text the two fallback records differ. -/
theorem claim9_fallback_paths (decodeJson : String → Option Analysis)
    (text err : String)
    (h : findJsonObject text = none ∨
         ∃ js, findJsonObject text = some js ∧ decodeJson js = none) :
    parse_analysis_response decodeJson text = create_structured_analysis_from_text text ∧
    (create_structured_analysis_from_text text).abstract =
      (if 500 < text.data.length then strTake text 500 ++ "..." else text) ∧
    analyze_paper true (Except.error err) decodeJson = Except.ok create_fallback_analysis ∧
    create_fallback_analysis.abstract =
      "Analysis unavailable - please check your API configuration" ∧
    (∀ t : String, create_structured_analysis_from_text t ≠ create_fallback_analysis) := by
  refine ⟨?_, rfl, rfl, rfl, ?_⟩
  · rcases h with h | ⟨js, hjs, hdec⟩
    · simp only [parse_analysis_response, h]
    · simp only [parse_analysis_response, hjs, hdec]
  · intro t ht
    have h2 := congrArg Analysis.title ht
    simp only [create_structured_analysis_from_text, create_fallback_analysis] at h2
    exact absurd h2 (by decide)

/-- Witness for C9: a reply with no JSON object plus a transport error. -/
theorem claim9_fallback_paths_witness :
    (findJsonObject ("no json in this reply") = none ∨
      ∃ js, findJsonObject ("no json in this reply") = some js ∧
        (fun (_ : String) => (none : Option Analysis)) js = none) ∧
    (parse_analysis_response (fun _ => none) ("no json in this reply")
        = create_structured_analysis_from_text ("no json in this reply") ∧
     (create_structured_analysis_from_text ("no json in this reply")).abstract =
       (if 500 < ("no json in this reply").data.length
        then strTake ("no json in this reply") 500 ++ "..."
        else "no json in this reply") ∧
     analyze_paper true (Except.error ("connection refused")) (fun _ => none)
        = Except.ok create_fallback_analysis ∧
     create_fallback_analysis.abstract =
       "Analysis unavailable - please check your API configuration" ∧
     (∀ t : String, create_structured_analysis_from_text t ≠ create_fallback_analysis)) :=
  ⟨Or.inl (by decide),
   claim9_fallback_paths (fun _ => none) ("no json in this reply") ("connection refused")
     (Or.inl (by decide))⟩

/-- C10: when no API client was initialized, `analyze_paper` fails with the
"client not initialized" error for every input — independently of what the
network would return — and never returns a successful record (in particular
not the transport-fallback record). -/
theorem claim10_missing_client_raises (networkResult : Except String String)
    (decodeJson : String → Option Analysis) :
    analyze_paper false networkResult decodeJson =
      Except.error ("Together.AI client not initialized. Please provide API key.") ∧
    (∀ other : Except String String,
      analyze_paper false networkResult decodeJson = analyze_paper false other decodeJson) ∧
    (∀ a : Analysis, analyze_paper false networkResult decodeJson ≠ Except.ok a) :=
  ⟨rfl, fun _ => rfl, fun a h => by simp [analyze_paper] at h⟩

end MySite
